import Mathlib

/-!
Verification of `models.py`: two convolutional classifiers (LeNet-5 and
ResNet-9), a `residual_block` builder, a device selector `check_gpu`,
training/evaluation loops (`simple_train`, `simple_test`) and a dataset
wrapper `CombinedDataset`.

The Python source is shallowly embedded: tensors become explicit shape plus
data functions over `ℚ`, layer shape arithmetic becomes `Option`-valued shape
functions (a `none` is an uncaught shape fault of the underlying library),
collections become `List`, Python `None`-able attributes become `Option`,
and the stateful pieces (`check_gpu`'s RNG seeding, `simple_test`'s console
output, method calls on a dataset) become explicit state passing.
-/

set_option autoImplicit false

/-! ### Dataset wrapper: `CombinedDataset` (models.py lines 162-178) -/

/-- Embedding of the `CombinedDataset` class: `__init__` stores the feature
collection, the label collection, and the optional transform exactly as
given, with no validation (models.py lines 163-166). -/
structure CombinedDataset (α β : Type) where
  features : List α
  labels : List β
  transform : Option (α → α)

/-- Embedding of `CombinedDataset.__len__` (models.py lines 168-169):
`return len(self.features)`. -/
def CombinedDataset.lenD {α β : Type} (ds : CombinedDataset α β) : Nat :=
  ds.features.length

/-- Embedding of `CombinedDataset.__getitem__` (models.py lines 171-178):
`x = self.features[idx]`, `y = self.labels[idx]`, then `x` is transformed
when a transform is set, and the pair `(x, y)` is returned.  An index access
beyond the collection is an uncaught `IndexError`, embedded as `none`. -/
def CombinedDataset.getitem {α β : Type} (ds : CombinedDataset α β) (idx : Nat) :
    Option (α × β) := do
  let x ← ds.features[idx]?
  let y ← ds.labels[idx]?
  let x2 := match ds.transform with
    | some t => t x
    | none => x
  return (x2, y)

/-- State-passing form of `__len__`: the method body reads
`self.features` and assigns to no field, so the dataset it returns as the
post-state is the one it was given. -/
def CombinedDataset.lenS {α β : Type} (ds : CombinedDataset α β) :
    Nat × CombinedDataset α β :=
  (ds.features.length, ds)

/-- State-passing form of `__getitem__`: the method body reads
`self.features`, `self.labels` and `self.transform` and assigns to no field,
so the dataset it returns as the post-state is the one it was given. -/
def CombinedDataset.getitemS {α β : Type} (ds : CombinedDataset α β) (idx : Nat) :
    Option (α × β) × CombinedDataset α β :=
  (ds.getitem idx, ds)

/-- One observation of a `CombinedDataset`: a `len(dataset)` call or a
`dataset[idx]` call. -/
inductive DSCall where
  | lenCall : DSCall
  | getCall : Nat → DSCall

/-- Post-state of a dataset after one method call. -/
def CombinedDataset.stepCall {α β : Type} (ds : CombinedDataset α β) :
    DSCall → CombinedDataset α β
  | DSCall.lenCall => ds.lenS.2
  | DSCall.getCall idx => (ds.getitemS idx).2

/-- Post-state of a dataset after a sequence of `__len__` / `__getitem__`
calls. -/
def CombinedDataset.runCalls {α β : Type} (ds : CombinedDataset α β) :
    List DSCall → CombinedDataset α β
  | [] => ds
  | c :: cs => (ds.stepCall c).runCalls cs

/-! ### Device selector: `check_gpu` (models.py lines 108-125) -/

/-- Device handle returned by `check_gpu`: the string `'cuda'`, the handle
`torch.device("mps")`, or the string `'cpu'`. -/
inductive Device where
  | cuda : Device
  | mps : Device
  | cpu : Device
deriving DecidableEq, Repr

/-- Seeds held by the process-wide random number generators: the global
torch RNG, the CUDA RNGs (`torch.cuda.manual_seed_all`) and the MPS RNG
(`torch.mps.manual_seed`).  A `none` means the generator has not been
seeded by this program. -/
structure RNGState where
  torchSeed : Option Nat
  cudaSeed : Option Nat
  mpsSeed : Option Nat
deriving DecidableEq, Repr

/-- Ambient state `check_gpu` reads and writes: which accelerators the
library reports available, the RNG seeds, and the console lines printed so
far. -/
structure World where
  cudaAvailable : Bool
  mpsAvailable : Bool
  rng : RNGState
  console : List String
deriving DecidableEq, Repr

/-- Embedding of `check_gpu` (models.py lines 108-125): seed the global
torch RNG when `manual_seed` is set, then prefer CUDA (also seeding all
CUDA devices), else MPS (also seeding the MPS RNG), else fall back to the
CPU. -/
def check_gpu (manualSeed printInfo : Bool) (w : World) : Device × World :=
  let w1 := if manualSeed then
      { w with rng := { w.rng with torchSeed := some 0 } }
    else w
  if w1.cudaAvailable then
    let w2 := if printInfo then
        { w1 with console := w1.console ++ ["CUDA is available"] }
      else w1
    (Device.cuda, { w2 with rng := { w2.rng with cudaSeed := some 0 } })
  else if w1.mpsAvailable then
    let w2 := if printInfo then
        { w1 with console := w1.console ++ ["MPS is available"] }
      else w1
    (Device.mps, { w2 with rng := { w2.rng with mpsSeed := some 0 } })
  else
    let w2 := if printInfo then
        { w1 with console := w1.console ++ ["CUDA is not available"] }
      else w1
    (Device.cpu, w2)

/-- A call to `check_gpu` seeded some random number generator when some
generator holds a seed afterwards. -/
def seededSome (w : World) : Prop :=
  w.rng.torchSeed.isSome ∨ w.rng.cudaSeed.isSome ∨ w.rng.mpsSeed.isSome

instance (w : World) : Decidable (seededSome w) := by
  unfold seededSome
  infer_instance

/-- World with no accelerator and no seeded generator, used to observe the
`manual_seed=False` CPU path of `check_gpu`. -/
def bareWorld : World :=
  { cudaAvailable := false, mpsAvailable := false
    rng := { torchSeed := none, cudaSeed := none, mpsSeed := none }
    console := [] }

/-! ### Shape arithmetic of the layers (LeNet5 / ResNet9 forward passes) -/

/-- Shape of a tensor: `(batch, channels, height, width)`. -/
abbrev Shape4 := Nat × Nat × Nat × Nat

/-- Shape of a flattened tensor: `(batch, features)`. -/
abbrev Shape2 := Nat × Nat

/-- Output extent of one sliding-window dimension: kernel `k`, stride `s`,
padding `p` over an input extent `d` give `(d + 2p - k) / s + 1` entries;
the library rejects a kernel larger than the padded input. -/
def slideDim (k s p d : Nat) : Option Nat :=
  if k ≤ d + 2 * p then some ((d + 2 * p - k) / s + 1) else none

/-- Shape rule of `nn.Conv2d(cin, cout, kernel_size=k, stride=s, padding=p)`:
the channel count must match `cin`; both spatial extents slide. -/
def conv2dShape (cin cout k s p : Nat) (sh : Shape4) : Option Shape4 :=
  if sh.2.1 = cin then
    (slideDim k s p sh.2.2.1).bind fun h2 =>
    (slideDim k s p sh.2.2.2).map fun w2 => (sh.1, cout, h2, w2)
  else none

/-- Shape rule shared by `nn.AvgPool2d(kernel_size=k, stride=s)` and
`nn.MaxPool2d(kernel_size=k, stride=s)` (padding 0): channels unchanged,
both spatial extents slide. -/
def pool2dShape (k s : Nat) (sh : Shape4) : Option Shape4 :=
  (slideDim k s 0 sh.2.2.1).bind fun h2 =>
  (slideDim k s 0 sh.2.2.2).map fun w2 => (sh.1, sh.2.1, h2, w2)

/-- Shape rule of `F.relu` on a 4-d tensor: elementwise, shape preserved. -/
def reluShape (sh : Shape4) : Shape4 := sh

/-- Shape rule of `F.relu` on a 2-d tensor: elementwise, shape preserved. -/
def relu2Shape (sh : Shape2) : Shape2 := sh

/-- Shape rule of `nn.BatchNorm2d(ch)`: the channel count must match `ch`;
shape preserved. -/
def batchNorm2dShape (ch : Nat) (sh : Shape4) : Option Shape4 :=
  if sh.2.1 = ch then some sh else none

/-- Shape rule of `x.view(x.size(0), -1)`: keep the batch extent, flatten
the rest. -/
def flattenShape (sh : Shape4) : Shape2 :=
  (sh.1, sh.2.1 * sh.2.2.1 * sh.2.2.2)

/-- Shape rule of `nn.Linear(inF, outF)` on a 2-d tensor: the feature
extent must match `inF`. -/
def linearShape (inF outF : Nat) (sh : Shape2) : Option Shape2 :=
  if sh.2 = inF then some (sh.1, outF) else none

/-- Shape rule of `+` on two tensors: the shapes must agree (models.py uses
it only on same-shaped tensors, so broadcasting is not modelled). -/
def addShape (s1 s2 : Shape4) : Option Shape4 :=
  if s1 = s2 then some s1 else none

/-! ### LeNet5 (models.py lines 22-48) -/

/-- Embedding of the `feature_size` computation of `LeNet5.__init__`
(models.py lines 30-33): push a dummy `(1, in_channels, H, W)` shape
through `conv1`, `pool1`, `conv2`, `pool2` and take the product of the
non-batch extents. -/
def lenet5_feature_size (inCh H W : Nat) : Option Nat :=
  (conv2dShape inCh 6 5 1 2 (1, inCh, H, W)).bind fun s1 =>
  (pool2dShape 2 2 s1).bind fun s2 =>
  (conv2dShape 6 16 5 1 0 s2).bind fun s3 =>
  (pool2dShape 2 2 s3).map fun s4 =>
  s4.2.1 * s4.2.2.1 * s4.2.2.2

/-- Shape semantics of `LeNet5.forward` (models.py lines 39-48) for a model
whose `fc1` expects `fs` flattened features and whose `fc3` emits `nc`
classes: conv1, relu, pool1, conv2, relu, pool2, flatten, fc1, relu, fc2,
relu, fc3. -/
def lenet5_forwardShape (inCh fs nc : Nat) (s : Shape4) : Option Shape2 :=
  (conv2dShape inCh 6 5 1 2 s).bind fun t1 =>
  (pool2dShape 2 2 (reluShape t1)).bind fun t2 =>
  (conv2dShape 6 16 5 1 0 t2).bind fun t3 =>
  (pool2dShape 2 2 (reluShape t3)).bind fun t4 =>
  (linearShape fs 120 (flattenShape t4)).bind fun u1 =>
  (linearShape 120 84 (relu2Shape u1)).bind fun u2 =>
  linearShape 84 nc (relu2Shape u2)

/-! ### ResNet9 (models.py lines 52-93), shape level -/

/-- Shape semantics of one `residual_block(cin, cout, pool)` unit
(models.py lines 52-60): `Conv2d(cin, cout, kernel_size=3, padding=1)`,
`BatchNorm2d(cout)`, `ReLU`, and a trailing `MaxPool2d(2)` when `pool`. -/
def resBlockShape (cin cout : Nat) (pool : Bool) (s : Shape4) : Option Shape4 :=
  (conv2dShape cin cout 3 1 1 s).bind fun t1 =>
  (batchNorm2dShape cout t1).bind fun t2 =>
  if pool then pool2dShape 2 2 (reluShape t2) else some (reluShape t2)

/-- Embedding of the `feature_size` computation of `ResNet9.__init__`
(models.py lines 75-78): push a dummy `(1, in_channels, H, W)` shape
through `prep`, `layer1_head`, `layer2`, `layer3_head` and the final pool,
then `size(1) * size(2) * size(3)`. -/
def resnet9_feature_size (inCh H W : Nat) : Option Nat :=
  (resBlockShape inCh 64 false (1, inCh, H, W)).bind fun s1 =>
  (resBlockShape 64 128 true s1).bind fun s2 =>
  (resBlockShape 128 256 true s2).bind fun s3 =>
  (resBlockShape 256 512 true s3).bind fun s4 =>
  (pool2dShape 2 2 s4).map fun s5 =>
  s5.2.1 * s5.2.2.1 * s5.2.2.2

/-- Shape semantics of `ResNet9.forward` (models.py lines 83-93): `prep`,
`layer1_head`, `layer1_residual` added to its input, `layer2`,
`layer3_head`, `layer3_residual` added to its input, the final pool,
flatten, `linear`. -/
def resnet9_forwardShape (inCh fs nc : Nat) (s : Shape4) : Option Shape2 :=
  (resBlockShape inCh 64 false s).bind fun x1 =>
  (resBlockShape 64 128 true x1).bind fun x2 =>
  (resBlockShape 128 128 false x2).bind fun r1 =>
  (resBlockShape 128 128 false r1).bind fun r2 =>
  (addShape r2 x2).bind fun x3 =>
  (resBlockShape 128 256 true x3).bind fun x4 =>
  (resBlockShape 256 512 true x4).bind fun x5 =>
  (resBlockShape 512 512 false x5).bind fun r3 =>
  (resBlockShape 512 512 false r3).bind fun r4 =>
  (addShape r4 x5).bind fun x6 =>
  (pool2dShape 2 2 x6).bind fun x7 =>
  linearShape fs nc (flattenShape x7)


/-! ### Value-level tensors over exact rationals (for the residual block) -/

/-- Tensor of shape `(n, c, h, w)`: the shape and an entry function.
Entries are exact rationals standing for the float entries. -/
structure Tensor4 where
  n : Nat
  c : Nat
  h : Nat
  w : Nat
  data : Nat → Nat → Nat → Nat → ℚ

/-- Tensor of shape `(n, f)` after flattening. -/
structure Tensor2 where
  n : Nat
  f : Nat
  data : Nat → Nat → ℚ

/-- Read an entry of a zero-padded tensor at possibly out-of-range spatial
coordinates, as convolution padding does. -/
def Tensor4.readPad (t : Tensor4) (b ch : Nat) (i j : Int) : ℚ :=
  if 0 ≤ i ∧ i < (t.h : Int) ∧ 0 ≤ j ∧ j < (t.w : Int) then
    t.data b ch i.toNat j.toNat
  else 0

/-- Sum of `f 0, ..., f (m-1)`. -/
def sumUpTo : Nat → (Nat → ℚ) → ℚ
  | 0, _ => 0
  | m + 1, f => sumUpTo m f + f m

/-- Maximum of `f 0, ..., f (m-1)` (0 when `m = 0`; the pools only use
nonempty windows). -/
def maxUpTo : Nat → (Nat → ℚ) → ℚ
  | 0, _ => 0
  | 1, f => f 0
  | m + 2, f => max (maxUpTo (m + 1) f) (f (m + 1))

/-- Value semantics of `nn.Conv2d(cin, cout, kernel_size=k, stride=s,
padding=p)` with explicit learned weights and biases: each output entry is
the bias plus the dot product of the kernel with the zero-padded input
window. -/
def conv2d (cin cout k s p : Nat) (weight : Nat → Nat → Nat → Nat → ℚ)
    (bias : Nat → ℚ) (t : Tensor4) : Tensor4 :=
  { n := t.n, c := cout
    h := (t.h + 2 * p - k) / s + 1, w := (t.w + 2 * p - k) / s + 1
    data := fun b o i j =>
      bias o + sumUpTo cin fun ch => sumUpTo k fun u => sumUpTo k fun v =>
        weight o ch u v *
          t.readPad b ch ((i * s + u : Nat) - (p : Int)) ((j * s + v : Nat) - (p : Int)) }

/-- Value semantics of `nn.BatchNorm2d` in its per-channel affine form: the
normalization statistics and the learned gain/shift fold into one scale
`g ch` and one shift `sh ch` per channel (in evaluation mode
`g ch = weight ch / sqrt(running_var ch + eps)` and
`sh ch = bias ch - running_mean ch * g ch`). -/
def batchNorm2d (g sh : Nat → ℚ) (t : Tensor4) : Tensor4 :=
  { t with data := fun b ch i j => g ch * t.data b ch i j + sh ch }

/-- Value semantics of `nn.ReLU` / `F.relu`: elementwise `max 0`. -/
def reluT (t : Tensor4) : Tensor4 :=
  { t with data := fun b ch i j => max 0 (t.data b ch i j) }

/-- Value semantics of `nn.MaxPool2d(kernel_size=k, stride=s)`: each output
entry is the maximum of a `k × k` input window. -/
def maxPool2d (k s : Nat) (t : Tensor4) : Tensor4 :=
  { n := t.n, c := t.c, h := (t.h - k) / s + 1, w := (t.w - k) / s + 1
    data := fun b ch i j =>
      maxUpTo k fun u => maxUpTo k fun v => t.data b ch (i * s + u) (j * s + v) }

/-- Value semantics of `+` on two same-shaped tensors: elementwise sum. -/
def addT (t1 t2 : Tensor4) : Tensor4 :=
  { t1 with data := fun b ch i j => t1.data b ch i j + t2.data b ch i j }

/-- Value semantics of `x.view(x.size(0), -1)`: row-major flattening of the
non-batch extents. -/
def flattenT (t : Tensor4) : Tensor2 :=
  { n := t.n, f := t.c * t.h * t.w
    data := fun b k => t.data b (k / (t.h * t.w)) (k % (t.h * t.w) / t.w) (k % t.w) }

/-- Value semantics of `nn.Linear(inF, outF)` with explicit weights and
biases. -/
def linearT (inF outF : Nat) (weight : Nat → Nat → ℚ) (bias : Nat → ℚ)
    (t : Tensor2) : Tensor2 :=
  { n := t.n, f := outF
    data := fun b o => bias o + sumUpTo inF fun k => weight o k * t.data b k }

/-- Learned parameters of one `residual_block` unit: convolution weights
and bias, batch-normalization scale and shift. -/
structure BlockParams where
  w : Nat → Nat → Nat → Nat → ℚ
  b : Nat → ℚ
  g : Nat → ℚ
  sh : Nat → ℚ

/-- Embedding of `residual_block(in_channels, out_channels, pool)`
(models.py lines 52-60): the `nn.Sequential` of
`Conv2d(cin, cout, kernel_size=3, padding=1)`, `BatchNorm2d(cout)`,
`ReLU`, and — only when `pool` — a trailing `MaxPool2d(2)`. -/
def residual_block (cin cout : Nat) (p : BlockParams) (pool : Bool)
    (x : Tensor4) : Tensor4 :=
  let y := reluT (batchNorm2d p.g p.sh (conv2d cin cout 3 1 1 p.w p.b x))
  if pool then maxPool2d 2 2 y else y

/-- Learned parameters of `ResNet9`: one `BlockParams` per
`residual_block` unit, plus the output `nn.Linear`. -/
structure ResNet9Params where
  prep : BlockParams
  l1h : BlockParams
  l1r1 : BlockParams
  l1r2 : BlockParams
  l2 : BlockParams
  l3h : BlockParams
  l3r1 : BlockParams
  l3r2 : BlockParams
  lw : Nat → Nat → ℚ
  lb : Nat → ℚ

/-- Embedding of `ResNet9.forward` (models.py lines 83-93), line by line:
`prep`, `layer1_head`, `layer1_residual(x) + x`, `layer2`, `layer3_head`,
`layer3_residual(x) + x`, `pool`, flatten, `linear` (a model whose
`feature_size` is `fs` and whose `linear` emits `nc` classes). -/
def resnet9_forward (inCh fs nc : Nat) (q : ResNet9Params) (x0 : Tensor4) : Tensor2 :=
  let x1 := residual_block inCh 64 q.prep false x0
  let x2 := residual_block 64 128 q.l1h true x1
  let x3 := addT (residual_block 128 128 q.l1r2 false
    (residual_block 128 128 q.l1r1 false x2)) x2
  let x4 := residual_block 128 256 q.l2 true x3
  let x5 := residual_block 256 512 q.l3h true x4
  let x6 := addT (residual_block 512 512 q.l3r2 false
    (residual_block 512 512 q.l3r1 false x5)) x5
  let x7 := maxPool2d 2 2 x6
  linearT fs nc q.lw q.lb (flattenT x7)

/-- Skip connection in the sense of the spec glossary: the output of a unit
added to the unit's own input. -/
def addSkip (f : Tensor4 → Tensor4) (x : Tensor4) : Tensor4 :=
  addT (f x) x

/-- Pipeline as the amended claim describes it: a skip addition wraps
exactly the two residual sequences (`layer1_residual`, `layer3_residual`);
`prep`, `layer1_head`, `layer2` and `layer3_head` feed forward with no
addition. -/
def resnet9_skip_pipeline (inCh fs nc : Nat) (q : ResNet9Params)
    (x : Tensor4) : Tensor2 :=
  linearT fs nc q.lw q.lb (flattenT (maxPool2d 2 2
    (addSkip (fun y => residual_block 512 512 q.l3r2 false
        (residual_block 512 512 q.l3r1 false y))
      (residual_block 256 512 q.l3h true (residual_block 128 256 q.l2 true
        (addSkip (fun y => residual_block 128 128 q.l1r2 false
            (residual_block 128 128 q.l1r1 false y))
          (residual_block 64 128 q.l1h true
            (residual_block inCh 64 q.prep false x))))))))

/-- Concrete `1 × 1 × 1 × 1` input tensor with entry `1`. -/
def cexInput : Tensor4 :=
  { n := 1, c := 1, h := 1, w := 1, data := fun _ _ _ _ => 1 }

/-- Concrete `residual_block` parameters for one input and one output
channel: the kernel is `1` at its centre and `0` elsewhere, the bias is
`0`, and the batch normalization is the identity, so the block maps the
`cexInput` entry `1` to `relu(1) = 1`. -/
def cexParams : BlockParams :=
  { w := fun _ _ u v => if u = 1 ∧ v = 1 then 1 else 0
    b := fun _ => 0
    g := fun _ => 1
    sh := fun _ => 0 }


/-! ### Evaluation loop: `simple_test` (models.py lines 144-158) -/

/-- Observable side effect of the loops.  The source only ever prints to
the console; file and network effects exist in the type to state that. -/
inductive Effect where
  | consoleLine : ℚ → Nat → Nat → Effect
  | fileWrite : String → Effect
  | netSend : String → Effect

/-- Whether an effect is a console print. -/
def Effect.isConsole : Effect → Bool
  | consoleLine _ _ _ => true
  | _ => false

/-- A model as the loops see it: its learned parameters and its
training-mode flag (`model.train()` / `model.eval()`). -/
structure MLModel (P : Type) where
  params : P
  training : Bool

/-- Embedding of `model.eval()`: clear the training flag, touching no
parameter. -/
def MLModel.evalMode {P : Type} (m : MLModel P) : MLModel P :=
  { m with training := false }

/-- Sum of a list of rationals. -/
def sumQ : List ℚ → ℚ
  | [] => 0
  | x :: t => x + sumQ t

/-- Sum of a list of naturals. -/
def sumN : List Nat → Nat
  | [] => 0
  | x :: t => x + sumN t

/-- Number of elements satisfying a Boolean predicate. -/
def countTrue {α : Type} (p : α → Bool) : List α → Nat
  | [] => 0
  | x :: t => (if p x then 1 else 0) + countTrue p t

/-- Index of the first maximal entry from position `i` on, given the best
index and value so far: semantics of `output.argmax(dim=1)` per sample. -/
def argmaxAux : List ℚ → Nat → Nat → ℚ → Nat
  | [], _, best, _ => best
  | x :: t, i, best, bv =>
    if bv < x then argmaxAux t (i + 1) i x else argmaxAux t (i + 1) best bv

/-- Index of the first maximal entry of a score vector (0 for an empty
vector, which a `num_classes ≥ 1` head never emits). -/
def argmaxIdx : List ℚ → Nat
  | [] => 0
  | x :: t => argmaxAux t 1 0 x

/-- Semantics of `F.cross_entropy(output, target, reduction='sum')`: the
sum over the batch of the per-sample cross-entropy loss.  The per-sample
loss `lossFn` is kept as a parameter: its real-number formula has no exact
rational form and only its batchwise summation matters here. -/
def crossEntropySum (lossFn : List ℚ → Nat → ℚ) (outputs : List (List ℚ))
    (targets : List Nat) : ℚ :=
  sumQ (List.zipWith lossFn outputs targets)

/-- Semantics of `pred.eq(target.view_as(pred)).sum().item()` after
`pred = output.argmax(dim=1)`: the number of samples in the batch whose
argmax prediction equals the target. -/
def batchCorrect (outputs : List (List ℚ)) (targets : List Nat) : Nat :=
  countTrue (fun s => decide (argmaxIdx s.1 = s.2)) (outputs.zip targets)

/-- Batches a `DataLoader(dataset, batch_size=n)` yields: consecutive
chunks of `n` samples, the last one possibly shorter. -/
def chunkList {α : Type} (n : Nat) (xs : List α) : List (List α) :=
  if h : n = 0 ∨ xs.length = 0 then [] else xs.take n :: chunkList n (xs.drop n)
termination_by xs.length
decreasing_by
  simp only [List.length_drop]
  have h1 : n ≠ 0 := fun hh => h (Or.inl hh)
  have h2 : xs.length ≠ 0 := fun hh => h (Or.inr hh)
  omega

/-- Embedding of `simple_test(model, device, test_loader)` (models.py
lines 144-158): switch the model to evaluation mode, walk the loader's
batches accumulating the summed batch losses and the per-batch correct
counts, divide the accumulated loss by the dataset size, and print one
console line with the metrics.  Returns the post-call model, the reported
average loss, the reported correct count, and the emitted effects.  The
network itself is `fwd`, a function of the parameters. -/
def simple_test {P I : Type} (m : MLModel P) (fwd : P → I → List ℚ)
    (lossFn : List ℚ → Nat → ℚ) (batchSize : Nat) (dataset : List (I × Nat)) :
    MLModel P × ℚ × Nat × List Effect :=
  let m2 := m.evalMode
  let batches := chunkList batchSize dataset
  let testLossSum := sumQ (batches.map fun batch =>
    crossEntropySum lossFn (batch.map fun s => fwd m2.params s.1)
      (batch.map Prod.snd))
  let correct := sumN (batches.map fun batch =>
    batchCorrect (batch.map fun s => fwd m2.params s.1) (batch.map Prod.snd))
  let avgLoss := testLossSum / (dataset.length : ℚ)
  (m2, avgLoss, correct, [Effect.consoleLine avgLoss correct dataset.length])


/-- Concrete model used to instantiate the evaluation-loop theorems: no
parameters, training mode on. -/
def c6wModel : MLModel Unit := { params := (), training := true }

/-- Concrete two-class network for the instantiation: scores `[x, 0]`. -/
def c6wFwd : Unit → Nat → List ℚ := fun _ x => [(x : ℚ), 0]

/-- Concrete per-sample loss for the instantiation. -/
def c6wLoss : List ℚ → Nat → ℚ := fun out y => out.headD 0 + y

/-- Concrete two-sample dataset for the instantiation. -/
def c6wData : List (Nat × Nat) := [(1, 0), (2, 1)]

/-! ### Shape lemmas -/

theorem slideDim_some_pos {k s p d e : Nat} (h : slideDim k s p d = some e) : 1 ≤ e := by
  unfold slideDim at h
  split at h
  · cases h
    exact Nat.succ_le_succ (Nat.zero_le _)
  · cases h

theorem slideDim_three {d : Nat} (hd : 1 ≤ d) : slideDim 3 1 1 d = some d := by
  unfold slideDim
  rw [if_pos (by omega)]
  have : (d + 2 * 1 - 3) / 1 + 1 = d := by
    simp only [Nat.div_one]
    omega
  rw [this]

theorem lenet5_shape_ok (inCh fs nc b H W : Nat)
    (hfs : lenet5_feature_size inCh H W = some fs) :
    lenet5_forwardShape inCh fs nc (b, inCh, H, W) = some (b, nc) := by
  unfold lenet5_feature_size at hfs
  unfold lenet5_forwardShape
  simp only [conv2dShape, pool2dShape, reluShape, relu2Shape, flattenShape, linearShape] at hfs ⊢
  simp [Option.bind_eq_some, Option.map_eq_some'] at hfs
  obtain ⟨h1, hh1, w1, hw1, h2, hh2, w2, hw2, v1, v2, v3, v4,
    ⟨h3, hh3, w3, hw3, rfl, rfl, rfl, rfl⟩, h4, hh4, w4, hw4, hprod⟩ := hfs
  simp [hh1, hw1, hh2, hw2, hh3, hw3, hh4, hw4, hprod]

theorem slideDim_pool {d : Nat} (hd : 2 ≤ d) : slideDim 2 2 0 d = some (d / 2) := by
  unfold slideDim
  rw [if_pos (by omega)]
  congr 1
  omega

theorem pool2dShape_structure {k s : Nat} {sh t : Shape4}
    (h : pool2dShape k s sh = some t) :
    ∃ h2 w2, t = (sh.1, sh.2.1, h2, w2) ∧ 1 ≤ h2 ∧ 1 ≤ w2 := by
  unfold pool2dShape at h
  rw [Option.bind_eq_some] at h
  obtain ⟨h2, hh2, h⟩ := h
  rw [Option.map_eq_some'] at h
  obtain ⟨w2, hw2, h⟩ := h
  exact ⟨h2, w2, h.symm, slideDim_some_pos hh2, slideDim_some_pos hw2⟩

theorem conv2dShape_structure {cin cout k s p : Nat} {sh t : Shape4}
    (h : conv2dShape cin cout k s p sh = some t) :
    ∃ h2 w2, t = (sh.1, cout, h2, w2) ∧ 1 ≤ h2 ∧ 1 ≤ w2 := by
  unfold conv2dShape at h
  split at h
  · rw [Option.bind_eq_some] at h
    obtain ⟨h2, hh2, h⟩ := h
    rw [Option.map_eq_some'] at h
    obtain ⟨w2, hw2, h⟩ := h
    exact ⟨h2, w2, h.symm, slideDim_some_pos hh2, slideDim_some_pos hw2⟩
  · cases h

theorem resBlockShape_structure {cin cout : Nat} {pool : Bool} {sh t : Shape4}
    (h : resBlockShape cin cout pool sh = some t) :
    ∃ h2 w2, t = (sh.1, cout, h2, w2) ∧ 1 ≤ h2 ∧ 1 ≤ w2 := by
  unfold resBlockShape at h
  rw [Option.bind_eq_some] at h
  obtain ⟨t1, ht1, h⟩ := h
  obtain ⟨h1, w1, rfl, hp1, hp2⟩ := conv2dShape_structure ht1
  rw [Option.bind_eq_some] at h
  obtain ⟨t2, ht2, h⟩ := h
  unfold batchNorm2dShape at ht2
  rw [if_pos rfl] at ht2
  cases ht2
  cases pool with
  | false =>
    rw [if_neg (by simp)] at h
    cases h
    exact ⟨h1, w1, rfl, hp1, hp2⟩
  | true =>
    rw [if_pos rfl] at h
    exact pool2dShape_structure h

theorem conv2dShape_batch (b2 : Nat) {cin cout k s p b1 c h w c2 h2 w2 : Nat}
    (hc : conv2dShape cin cout k s p (b1, c, h, w) = some (b1, c2, h2, w2)) :
    conv2dShape cin cout k s p (b2, c, h, w) = some (b2, c2, h2, w2) := by
  unfold conv2dShape at hc ⊢
  by_cases hcc : c = cin
  · rw [if_pos hcc] at hc
    rw [if_pos hcc]
    rw [Option.bind_eq_some] at hc ⊢
    obtain ⟨a, ha, hc⟩ := hc
    rw [Option.map_eq_some'] at hc
    obtain ⟨a2, ha2, hc⟩ := hc
    simp at hc
    obtain ⟨rfl, rfl, rfl⟩ := hc
    refine ⟨a, ha, ?_⟩
    rw [Option.map_eq_some']
    exact ⟨a2, ha2, rfl⟩
  · rw [if_neg hcc] at hc
    cases hc

theorem pool2dShape_batch (b2 : Nat) {k s b1 c h w c2 h2 w2 : Nat}
    (hc : pool2dShape k s (b1, c, h, w) = some (b1, c2, h2, w2)) :
    pool2dShape k s (b2, c, h, w) = some (b2, c2, h2, w2) := by
  unfold pool2dShape at hc ⊢
  rw [Option.bind_eq_some] at hc ⊢
  obtain ⟨a, ha, hc⟩ := hc
  rw [Option.map_eq_some'] at hc
  obtain ⟨a2, ha2, hc⟩ := hc
  simp at hc
  obtain ⟨rfl, rfl, rfl⟩ := hc
  refine ⟨a, ha, ?_⟩
  rw [Option.map_eq_some']
  exact ⟨a2, ha2, rfl⟩

theorem resBlockShape_batch (b2 : Nat) {cin cout : Nat} {pool : Bool} {b1 c h w c2 h2 w2 : Nat}
    (hc : resBlockShape cin cout pool (b1, c, h, w) = some (b1, c2, h2, w2)) :
    resBlockShape cin cout pool (b2, c, h, w) = some (b2, c2, h2, w2) := by
  unfold resBlockShape at hc ⊢
  rw [Option.bind_eq_some] at hc ⊢
  obtain ⟨t1, ht1, hc⟩ := hc
  obtain ⟨a1, a2, rfl, hp1, hp2⟩ := conv2dShape_structure ht1
  refine ⟨(b2, cout, a1, a2), conv2dShape_batch b2 ht1, ?_⟩
  rw [Option.bind_eq_some] at hc ⊢
  obtain ⟨t2, ht2, hc⟩ := hc
  unfold batchNorm2dShape at ht2 ⊢
  rw [if_pos rfl] at ht2
  cases ht2
  refine ⟨(b2, cout, a1, a2), by rw [if_pos rfl], ?_⟩
  cases pool with
  | false =>
    rw [if_neg (by simp)] at hc ⊢
    cases hc
    rfl
  | true =>
    rw [if_pos rfl] at hc ⊢
    exact pool2dShape_batch b2 hc

theorem resBlockShape_id (cout b : Nat) {h w : Nat} (hh : 1 ≤ h) (hw : 1 ≤ w) :
    resBlockShape cout cout false (b, cout, h, w) = some (b, cout, h, w) := by
  unfold resBlockShape conv2dShape batchNorm2dShape reluShape
  rw [if_pos rfl]
  rw [slideDim_three hh, slideDim_three hw]
  simp

theorem resnet9_shape_ok (inCh fs nc b H W : Nat)
    (hfs : resnet9_feature_size inCh H W = some fs) :
    resnet9_forwardShape inCh fs nc (b, inCh, H, W) = some (b, nc) := by
  unfold resnet9_feature_size at hfs
  rw [Option.bind_eq_some] at hfs
  obtain ⟨s1, hs1, hfs⟩ := hfs
  obtain ⟨h1, w1, rfl, h1p, w1p⟩ := resBlockShape_structure hs1
  have hs1b : resBlockShape inCh 64 false (1, inCh, H, W) = some (1, 64, h1, w1) := hs1
  rw [Option.bind_eq_some] at hfs
  obtain ⟨s2, hs2, hfs⟩ := hfs
  obtain ⟨h2, w2, rfl, h2p, w2p⟩ := resBlockShape_structure hs2
  have hs2b : resBlockShape 64 128 true (1, 64, h1, w1) = some (1, 128, h2, w2) := hs2
  rw [Option.bind_eq_some] at hfs
  obtain ⟨s3, hs3, hfs⟩ := hfs
  obtain ⟨h3, w3, rfl, h3p, w3p⟩ := resBlockShape_structure hs3
  have hs3b : resBlockShape 128 256 true (1, 128, h2, w2) = some (1, 256, h3, w3) := hs3
  rw [Option.bind_eq_some] at hfs
  obtain ⟨s4, hs4, hfs⟩ := hfs
  obtain ⟨h4, w4, rfl, h4p, w4p⟩ := resBlockShape_structure hs4
  have hs4b : resBlockShape 256 512 true (1, 256, h3, w3) = some (1, 512, h4, w4) := hs4
  rw [Option.map_eq_some'] at hfs
  obtain ⟨s5, hs5, hprod⟩ := hfs
  obtain ⟨h5, w5, rfl, h5p, w5p⟩ := pool2dShape_structure hs5
  have hs5b : pool2dShape 2 2 (1, 512, h4, w4) = some (1, 512, h5, w5) := hs5
  have hprodb : 512 * h5 * w5 = fs := hprod
  unfold resnet9_forwardShape
  have g1 := resBlockShape_batch b hs1b
  have g2 := resBlockShape_batch b hs2b
  have g3 := resBlockShape_batch b hs3b
  have g4 := resBlockShape_batch b hs4b
  have g5 := pool2dShape_batch b hs5b
  have r1 : resBlockShape 128 128 false (b, 128, h2, w2) = some (b, 128, h2, w2) :=
    resBlockShape_id 128 b h2p w2p
  have r3 : resBlockShape 512 512 false (b, 512, h4, w4) = some (b, 512, h4, w4) :=
    resBlockShape_id 512 b h4p w4p
  simp [g1, g2, g3, g4, g5, r1, r3, addShape, flattenShape, linearShape, hprodb]

/-- C2: for every model constructed as `LeNet5(in_channels, num_classes,
input_size)` or `ResNet9(in_channels, num_classes, input_size)` (that is,
whose `__init__` dummy forward pass computed a feature size), and every
input batch of shape `(batch, in_channels, H, W)`, `forward` returns a
tensor of shape `(batch, num_classes)`. -/
theorem c2_forward_output_shape (b inCh nc H W fsL fsR : Nat) :
    (lenet5_feature_size inCh H W = some fsL →
      lenet5_forwardShape inCh fsL nc (b, inCh, H, W) = some (b, nc)) ∧
    (resnet9_feature_size inCh H W = some fsR →
      resnet9_forwardShape inCh fsR nc (b, inCh, H, W) = some (b, nc)) :=
  ⟨lenet5_shape_ok inCh fsL nc b H W, resnet9_shape_ok inCh fsR nc b H W⟩

/-- Witness for C2 at `in_channels = 3`, `num_classes = 10`,
`input_size = (32, 32)`, batch 64: LeNet5 computes a feature size of
`16 * 6 * 6 = 576`, ResNet9 computes `512 * 2 * 2 = 2048`, and both
forward passes emit shape `(64, 10)`. -/
theorem c2_forward_output_shape_witness :
    lenet5_feature_size 3 32 32 = some 576 ∧
    resnet9_feature_size 3 32 32 = some 2048 ∧
    lenet5_forwardShape 3 576 10 (64, 3, 32, 32) = some (64, 10) ∧
    resnet9_forwardShape 3 2048 10 (64, 3, 32, 32) = some (64, 10) :=
  ⟨by decide, by decide,
    (c2_forward_output_shape 64 3 10 32 32 576 2048).1 (by decide),
    (c2_forward_output_shape 64 3 10 32 32 576 2048).2 (by decide)⟩

/-- C1 counterexample: the claim states that a `residual_block` unit's
output is added to the block's own input, i.e. the value passed on is
`input + block(input)`.  At the concrete input `cexInput` with parameters
`cexParams`, the value `residual_block` computes is `1` while
`input + block(input)` is `2`: `residual_block` itself contains no skip
addition. -/
theorem c1_counterexample :
    residual_block 1 1 cexParams false cexInput ≠
      addSkip (residual_block 1 1 cexParams false) cexInput := by
  intro h
  have h0 := congrArg (fun t => t.data 0 0 0 0) h
  simp only [residual_block, addSkip, addT, conv2d, batchNorm2d, reluT,
    Tensor4.readPad, cexInput, cexParams, sumUpTo, if_neg, if_pos] at h0
  norm_num at h0

/-- C1 amended: in `ResNet9.forward` a skip addition wraps exactly the two
residual sequences — the outputs of `layer1_residual` and
`layer3_residual` are added to their own inputs — while the
`residual_block` units `prep`, `layer1_head`, `layer2` and `layer3_head`
pass their output on with no addition. -/
theorem c1_amended_skip_structure (inCh fs nc : Nat) (q : ResNet9Params)
    (x : Tensor4) :
    resnet9_forward inCh fs nc q x = resnet9_skip_pipeline inCh fs nc q x := rfl

/-- C3 counterexample: `CombinedDataset.__init__` checks nothing, so a
dataset whose feature and label collections differ in length is
constructible: with features `[0, 1]` and labels `[0]` the dataset reports
length `2`, the label collection has length `1`, and the in-range index `1`
has no label (`__getitem__(1)` faults). -/
theorem c3_counterexample :
    (CombinedDataset.mk [0, 1] [0] (none : Option (Nat → Nat))).lenD = 2 ∧
    (CombinedDataset.mk [0, 1] [0] (none : Option (Nat → Nat))).labels.length = 1 ∧
    (CombinedDataset.mk [0, 1] [0] (none : Option (Nat → Nat))).getitem 1 = none := by
  decide

/-- C3 amended: equal length of the two collections is a construction
precondition, not an enforced invariant; when a `CombinedDataset` is
constructed from equal-length collections, every index below the dataset
length has both a feature and a label. -/
theorem c3_amended_equal_length_indexable {α β : Type} (ds : CombinedDataset α β)
    (hlen : ds.features.length = ds.labels.length) (idx : Nat)
    (hidx : idx < ds.lenD) :
    (ds.features[idx]?).isSome = true ∧ (ds.labels[idx]?).isSome = true := by
  unfold CombinedDataset.lenD at hidx
  constructor
  · rw [List.getElem?_eq_getElem (by omega)]
    rfl
  · rw [List.getElem?_eq_getElem (by omega)]
    rfl

/-- Witness for the amended C3 at a dataset with two features and two
labels, index 1. -/
theorem c3_amended_equal_length_indexable_witness :
    (CombinedDataset.mk [5, 6] [7, 8] (none : Option (Nat → Nat))).features.length =
      (CombinedDataset.mk [5, 6] [7, 8] (none : Option (Nat → Nat))).labels.length ∧
    1 < (CombinedDataset.mk [5, 6] [7, 8] (none : Option (Nat → Nat))).lenD ∧
    ((CombinedDataset.mk [5, 6] [7, 8] (none : Option (Nat → Nat))).features[1]?).isSome = true ∧
    ((CombinedDataset.mk [5, 6] [7, 8] (none : Option (Nat → Nat))).labels[1]?).isSome = true := by
  refine ⟨by decide, by decide, ?_⟩
  exact c3_amended_equal_length_indexable
    (CombinedDataset.mk [5, 6] [7, 8] none) (by decide) 1 (by decide)

/-- C10: `__len__` returns the length of the feature collection alone:
for any label collection — also one of a different length — and any
transform, the reported length is `len(features)`. -/
theorem c10_len_features_only {α β : Type} (features : List α)
    (labels labels2 : List β) (t t2 : Option (α → α)) :
    (CombinedDataset.mk features labels t).lenD = features.length ∧
    (CombinedDataset.mk features labels t).lenD =
      (CombinedDataset.mk features labels2 t2).lenD :=
  ⟨rfl, rfl⟩

/-- C5: for an index below both collections, `__getitem__` returns
`(features[idx], labels[idx])` when no transform is set and
`(transform(features[idx]), labels[idx])` when one is set; the label is
returned untransformed in both cases. -/
theorem c5_getitem_transform {α β : Type} (ds : CombinedDataset α β) (idx : Nat)
    (h1 : idx < ds.features.length) (h2 : idx < ds.labels.length) :
    (ds.transform = none →
      ds.getitem idx = some (ds.features.get ⟨idx, h1⟩, ds.labels.get ⟨idx, h2⟩)) ∧
    (∀ t, ds.transform = some t →
      ds.getitem idx = some (t (ds.features.get ⟨idx, h1⟩), ds.labels.get ⟨idx, h2⟩)) := by
  constructor
  · intro ht
    simp [CombinedDataset.getitem, List.getElem?_eq_getElem h1,
      List.getElem?_eq_getElem h2, ht]
  · intro t ht
    simp [CombinedDataset.getitem, List.getElem?_eq_getElem h1,
      List.getElem?_eq_getElem h2, ht]

/-- Witness for C5 at a dataset with features `[10, 20]`, labels
`[30, 40]` and the transform `x + 1`, index 1: the feature is transformed
to `21`, the label `40` is not. -/
theorem c5_getitem_transform_witness :
    1 < [10, 20].length ∧ 1 < [30, 40].length ∧
    (CombinedDataset.mk [10, 20] [30, 40] (some (fun x => x + 1))).getitem 1 =
      some (21, 40) :=
  ⟨by decide, by decide,
    (c5_getitem_transform (CombinedDataset.mk [10, 20] [30, 40]
        (some (fun x => x + 1))) 1 (by decide) (by decide)).2 (fun x => x + 1) rfl⟩

/-- C7: a `CombinedDataset` is read-only: any sequence of `__len__` and
`__getitem__` calls leaves the dataset — its `features`, `labels` and
`transform` fields — exactly as constructed. -/
theorem c7_dataset_immutable {α β : Type} (ds : CombinedDataset α β)
    (calls : List DSCall) :
    ds.runCalls calls = ds := by
  induction calls generalizing ds with
  | nil => rfl
  | cons c cs ih =>
    cases c with
    | lenCall => exact ih ds
    | getCall idx => exact ih ds

/-- C8: no function of the source catches a fault or substitutes a value
for one.  An out-of-range index in `CombinedDataset.__getitem__` faults
exactly when one of the two collections is too short — `none` arises from
the failed access itself and from nothing else, and no fallback pair is
returned in its place; a batch whose channel count does not match the
model's `in_channels` makes the whole forward pass fault. -/
theorem c8_errors_propagate {α β : Type} :
    (∀ (ds : CombinedDataset α β) (idx : Nat),
      ds.getitem idx = none ↔
        ds.features.length ≤ idx ∨ ds.labels.length ≤ idx) ∧
    (∀ (inCh fs nc bb c h w : Nat), c ≠ inCh →
      lenet5_forwardShape inCh fs nc (bb, c, h, w) = none) := by
  constructor
  · intro ds idx
    constructor
    · intro hnone
      by_contra hcon
      push_neg at hcon
      obtain ⟨hf, hl⟩ := hcon
      simp [CombinedDataset.getitem, List.getElem?_eq_getElem (by omega : idx < ds.features.length),
        List.getElem?_eq_getElem (by omega : idx < ds.labels.length)] at hnone
    · intro hor
      rcases hor with hf | hl
      · simp [CombinedDataset.getitem, List.getElem?_eq_none hf]
      · simp [CombinedDataset.getitem, List.getElem?_eq_none hl]
  · intro inCh fs nc bb c h w hc
    simp [lenet5_forwardShape, conv2dShape, hc]

/-- Witness for C8: a dataset with one feature and no label faults at
index 0, and a 2-channel batch fed to a 1-channel LeNet5 faults. -/
theorem c8_errors_propagate_witness :
    (CombinedDataset.mk [0] ([] : List Nat) none).getitem 0 = none ∧
    (2 : Nat) ≠ 1 ∧ lenet5_forwardShape 1 400 10 (64, 2, 28, 28) = none :=
  ⟨((@c8_errors_propagate Nat Nat).1
      (CombinedDataset.mk [0] [] none) 0).mpr (by decide),
    by decide,
    (@c8_errors_propagate Nat Nat).2 1 400 10 64 2 28 28 (by decide)⟩

/-- C4 counterexample: the claim states `check_gpu` seeds the
random-number-generator state in every case before returning.  Called with
`manual_seed=False` on a machine with no CUDA and no MPS, it returns the
CPU device and seeds nothing: every generator is still unseeded
afterwards. -/
theorem c4_counterexample :
    (check_gpu false false bareWorld).1 = Device.cpu ∧
    ¬ seededSome (check_gpu false false bareWorld).2 := by
  decide

/-- C4 amended: `check_gpu` prefers CUDA over MPS over CPU, and it seeds
the global torch generator exactly when `manual_seed` is set (the
default), the CUDA generators exactly when CUDA is available, and the MPS
generator exactly when MPS is the selected device — so on the
`manual_seed=False` CPU path nothing is seeded. -/
theorem c4_amended_device_and_seeding (ms pi : Bool) (w : World) :
    (check_gpu ms pi w).1 =
      (if w.cudaAvailable then Device.cuda
        else if w.mpsAvailable then Device.mps else Device.cpu) ∧
    (check_gpu ms pi w).2.rng.torchSeed =
      (if ms then some 0 else w.rng.torchSeed) ∧
    (check_gpu ms pi w).2.rng.cudaSeed =
      (if w.cudaAvailable then some 0 else w.rng.cudaSeed) ∧
    (check_gpu ms pi w).2.rng.mpsSeed =
      (if ¬ w.cudaAvailable ∧ w.mpsAvailable then some 0 else w.rng.mpsSeed) := by
  unfold check_gpu
  cases hcu : w.cudaAvailable <;> cases hmp : w.mpsAvailable <;>
    cases ms <;> cases pi <;> simp [hcu, hmp]

/-! ### Lemmas about the evaluation loop -/

theorem chunkList_join {α : Type} (n : Nat) (hn : n ≠ 0) (xs : List α) :
    (chunkList n xs).flatten = xs := by
  rw [chunkList]
  split
  · next h =>
    rcases h with h | h
    · exact absurd h hn
    · rw [List.length_eq_zero] at h
      simp [h]
  · next h =>
    rw [List.flatten_cons, chunkList_join n hn (xs.drop n)]
    exact List.take_append_drop n xs
termination_by xs.length
decreasing_by
  rename_i hcon
  simp only [List.length_drop]
  have h1 : xs.length ≠ 0 := fun hh => hcon (Or.inr hh)
  omega

theorem sumQ_append (a b : List ℚ) : sumQ (a ++ b) = sumQ a + sumQ b := by
  induction a with
  | nil => simp [sumQ]
  | cons x t ih =>
    simp [sumQ, ih]
    ring

theorem countTrue_append {α : Type} (p : α → Bool) (a b : List α) :
    countTrue p (a ++ b) = countTrue p a + countTrue p b := by
  induction a with
  | nil => simp [countTrue]
  | cons x t ih =>
    simp [countTrue, ih]
    omega

theorem sumQ_chunks {α : Type} (g : α → ℚ) (ls : List (List α)) :
    sumQ (ls.map fun b => sumQ (b.map g)) = sumQ (ls.flatten.map g) := by
  induction ls with
  | nil => rfl
  | cons b t ih =>
    simp only [List.map_cons, List.flatten_cons, List.map_append, sumQ, sumQ_append, ih]

theorem countTrue_chunks {α : Type} (p : α → Bool) (ls : List (List α)) :
    sumN (ls.map fun b => countTrue p b) = countTrue p ls.flatten := by
  induction ls with
  | nil => rfl
  | cons b t ih =>
    simp only [List.map_cons, List.flatten_cons, countTrue_append, sumN, ih]

theorem crossEntropySum_map {α : Type} (lossFn : List ℚ → Nat → ℚ)
    (f1 : α → List ℚ) (f2 : α → Nat) (b : List α) :
    crossEntropySum lossFn (b.map f1) (b.map f2) =
      sumQ (b.map fun s => lossFn (f1 s) (f2 s)) := by
  unfold crossEntropySum
  induction b with
  | nil => rfl
  | cons x t ih => simp [List.zipWith, sumQ, ih]

theorem countTrue_map {α β : Type} (p : β → Bool) (f : α → β) (t : List α) :
    countTrue p (t.map f) = countTrue (fun a => p (f a)) t := by
  induction t with
  | nil => rfl
  | cons x s ih => simp [countTrue, ih]

theorem batchCorrect_map {α : Type} (f1 : α → List ℚ) (f2 : α → Nat) (b : List α) :
    batchCorrect (b.map f1) (b.map f2) =
      countTrue (fun s => decide (argmaxIdx (f1 s) = f2 s)) b := by
  unfold batchCorrect
  induction b with
  | nil => rfl
  | cons x t ih => simp [List.zip_cons_cons, countTrue, ih, countTrue_map]

/-- C6: `simple_test` accumulates over every batch of the loader: the
reported average loss is the sum over all samples of the per-sample loss
divided by the dataset size, the reported correct count is the number of
samples whose argmax prediction equals the target, and the only effects
emitted are console prints. -/
theorem c6_simple_test_metrics {P I : Type} (m : MLModel P) (fwd : P → I → List ℚ)
    (lossFn : List ℚ → Nat → ℚ) (batchSize : Nat) (dataset : List (I × Nat))
    (hbs : 0 < batchSize) :
    (simple_test m fwd lossFn batchSize dataset).2.1 =
      sumQ (dataset.map fun s => lossFn (fwd m.params s.1) s.2) /
        (dataset.length : ℚ) ∧
    (simple_test m fwd lossFn batchSize dataset).2.2.1 =
      countTrue (fun s => decide (argmaxIdx (fwd m.params s.1) = s.2)) dataset ∧
    ∀ e ∈ (simple_test m fwd lossFn batchSize dataset).2.2.2,
      e.isConsole = true := by
  have hn : batchSize ≠ 0 := by omega
  refine ⟨?_, ?_, ?_⟩
  · simp only [simple_test, MLModel.evalMode]
    simp only [crossEntropySum_map, sumQ_chunks, chunkList_join batchSize hn]
  · simp only [simple_test, MLModel.evalMode]
    simp only [batchCorrect_map, countTrue_chunks, chunkList_join batchSize hn]
  · simp only [simple_test]
    intro e he
    simp only [List.mem_singleton] at he
    subst he
    rfl

/-- Witness for C6 at a two-sample dataset, batch size 1, a two-class
network `x ↦ [x, 0]` and the loss `out ↦ y ↦ out[0] + y`. -/
theorem c6_simple_test_metrics_witness :
    (0 : Nat) < 1 ∧
    ((simple_test c6wModel c6wFwd c6wLoss 1 c6wData).2.1 =
      sumQ (c6wData.map fun s => c6wLoss (c6wFwd c6wModel.params s.1) s.2) /
        (c6wData.length : ℚ) ∧
    (simple_test c6wModel c6wFwd c6wLoss 1 c6wData).2.2.1 =
      countTrue (fun s => decide (argmaxIdx (c6wFwd c6wModel.params s.1) = s.2))
        c6wData ∧
    ∀ e ∈ (simple_test c6wModel c6wFwd c6wLoss 1 c6wData).2.2.2,
      e.isConsole = true) :=
  ⟨by decide, c6_simple_test_metrics c6wModel c6wFwd c6wLoss 1 c6wData (by decide)⟩

/-- C9: `simple_test` runs under `torch.no_grad()` with no optimizer and
no parameter assignment: the model's parameters after the call are exactly
the parameters before it (only the training-mode flag changes). -/
theorem c9_simple_test_preserves_params {P I : Type} (m : MLModel P)
    (fwd : P → I → List ℚ) (lossFn : List ℚ → Nat → ℚ) (batchSize : Nat)
    (dataset : List (I × Nat)) :
    (simple_test m fwd lossFn batchSize dataset).1.params = m.params := rfl
